import Mathlib

/-!
Shallow embedding of `src/main.py` (policy-state-demo): the policy gate,
the contact-collection state machine, and the `next_reply` dialogue step.

Python strings are modelled as Lean `String`s; ASCII-only versions of
`str.lower`, `str.strip`, `str.isdigit` and substring search (`in`,
`split(sep, 1)`) are defined below, matching Python's behaviour on the
ASCII texts the program manipulates.  Exceptions that CPython would raise
(`IndexError` from `list[1]` on a 1-element list, `AttributeError` from
calling a method a `list` does not have) are modelled with `Except`; since
the Python code mutates the session object in place before such a raise,
the error value carries the state as mutated at the moment of the raise.
-/

namespace PolicyDemo

/-- ASCII lowercasing of one character, as Python `str.lower` acts on ASCII. -/
def pyLowerChar (c : Char) : Char :=
  if 'A' ≤ c ∧ c ≤ 'Z' then Char.ofNat (c.toNat + 32) else c

/-- ASCII `str.lower`. -/
def pyLower (s : String) : String :=
  String.mk (s.data.map pyLowerChar)

/-- Python whitespace stripped by `str.strip` (ASCII part). -/
def isPySpace (c : Char) : Bool :=
  c = ' ' || c = '\t' || c = '\n' || c = '\r' || c = '\x0b' || c = '\x0c'

/-- Strip leading and trailing whitespace from a character list. -/
def stripList (l : List Char) : List Char :=
  ((l.dropWhile isPySpace).reverse.dropWhile isPySpace).reverse

/-- Python `str.strip`. -/
def pyStrip (s : String) : String :=
  String.mk (stripList s.data)

/-- Does `pat` occur as a contiguous sublist of the second argument?
Python's `pat in s` on strings. -/
def subList (pat : List Char) : List Char → Bool
  | [] => pat.isEmpty
  | c :: rest => pat.isPrefixOf (c :: rest) || subList pat rest

/-- Python `pat in s` for strings. -/
def strIn (pat s : String) : Bool :=
  subList pat.data s.data

/-- The part of the list after the first occurrence of `sep`, if `sep`
occurs; Python `s.split(sep, 1)[1]` succeeds exactly in that case. -/
def sOnce (sep : List Char) : List Char → Option (List Char)
  | [] => none
  | c :: rest =>
    if sep.isPrefixOf (c :: rest) then some ((c :: rest).drop sep.length)
    else sOnce sep rest

/-- The part of the list before the first occurrence of `sep` (the whole
list if `sep` does not occur); Python `s.split(sep, 1)[0]`. -/
def sBefore (sep : List Char) : List Char → List Char
  | [] => []
  | c :: rest =>
    if sep.isPrefixOf (c :: rest) then []
    else c :: sBefore sep rest

/-- Python `", ".join` specialised to the comma-space separator. -/
def joinComma : List String → String
  | [] => ""
  | [x] => x
  | x :: xs => x ++ ", " ++ joinComma xs

/-- Python f-string interpolation of an optional field (`None` prints as
"None"). -/
def pyStr : Option String → String
  | none => "None"
  | some s => s

/-- Python truthiness of an optional string: `None` and `""` are falsy. -/
def truthy : Option String → Bool
  | none => false
  | some s => !s.isEmpty

/-- The three dialogue steps of the state machine (`class Step`). -/
inductive Step where
  | LIMITED_RESPONSE
  | COLLECT_CONTACT
  | HANDOFF
deriving DecidableEq

/-- The contact fields gathered so far (`class Collected`). -/
structure Collected where
  name : Option String := none
  phone : Option String := none
  best_time : Option String := none
deriving DecidableEq

/-- The per-session state (`class SessionState`). -/
structure SessionState where
  step : Step := Step.LIMITED_RESPONSE
  procedure : Option String := none
  intent : Option String := none
  collected : Collected := {}
deriving DecidableEq

/-- A fresh session state, as `SessionState()` constructs it. -/
def initState : SessionState := {}

instance {ε α : Type} [DecidableEq ε] [DecidableEq α] : DecidableEq (Except ε α) := by
  intro a b
  cases a <;> cases b
  case error.error e f =>
    exact if h : e = f then Decidable.isTrue (by rw [h])
      else Decidable.isFalse (by intro hh; injection hh; contradiction)
  case error.ok e x => exact Decidable.isFalse (by intro hh; exact Except.noConfusion hh)
  case ok.error x e => exact Decidable.isFalse (by intro hh; exact Except.noConfusion hh)
  case ok.ok x y =>
    exact if h : x = y then Decidable.isTrue (by rw [h])
      else Decidable.isFalse (by intro hh; injection hh; contradiction)

/-- The exceptions the Python code can raise while computing a reply. -/
inductive PyError where
  | indexError
  | attrError
deriving DecidableEq

/-- The policy gate's keyword list (`is_medical_or_medication_question`). -/
def keywordList : List String :=
  [ "antibiotic", "antibiotics", "amoxicillin", "penicillin", "clindamycin",
    "medicine", "medication", "dose", "dosage", "take", "should i",
    "ibuprofen", "painkiller", "prescription" ]

/-- Policy gate: does the lowercased text contain any keyword as a
substring? (`is_medical_or_medication_question`). -/
def is_medical_or_medication_question (text : String) : Bool :=
  let t := pyLower text
  keywordList.any (fun k => strIn k t)

/-- The fixed disclaimer reply (`limited_response_policy`). -/
def limited_response_policy (practice_name user_text : String) : String :=
  "Thanks for your question. I can’t recommend specific medication (including antibiotics) without a clinician evaluating your situation.\n\nIf you have severe swelling, fever, trouble swallowing/breathing, or rapidly worsening pain, please seek urgent care immediately.\n\nIf not urgent: the safest next step is to speak with a dentist from "
  ++ practice_name
  ++ " for proper guidance. Can I take your **name** and **phone number**, and the **best time** to call you back?"

/-- The name patterns searched, in order. -/
def namePats : List String := ["my name is ", "i am ", "i'm "]

/-- The delimiters at which the name candidate is cut, in order. -/
def nameStopList : List String := [".", ",", ";", " and "]

/-- The "best time" trigger phrases. -/
def timeWordList : List String :=
  ["morning", "afternoon", "evening", "today", "tomorrow", "anytime"]

/-- First pattern of `pats` occurring in `t`, scanning the list in order
(the `for pat in [...]` loop with its `break`). -/
def findPat (t : String) : List String → Option String
  | [] => none
  | p :: ps => if strIn p t then some p else findPat t ps

/-- Sequential truncation `name = name.split(stop, 1)[0].strip()` for each
stop that occurs, in list order. -/
def truncStops : List String → String → String
  | [], n => n
  | stop :: ss, n =>
    truncStops ss
      (if strIn stop n then String.mk (stripList (sBefore stop.data n.data)) else n)

/-- Phone extraction: keep digits and plus signs; if at least 9 digits and
no phone stored yet, store them. -/
def phoneStep (text : String) (c : Collected) : Collected :=
  let digits := String.mk (text.data.filter fun ch => ch.isDigit || ch = '+')
  if 9 ≤ (digits.data.filter fun ch => ch ≠ '+').length ∧ c.phone = none then
    { c with phone := some digits }
  else c

/-- Best-time extraction: if a trigger phrase occurs in the lowercased text
and no best time stored yet, store the whole stripped text. -/
def timeStep (text t : String) (c : Collected) : Collected :=
  if c.best_time = none ∧ timeWordList.any (fun x => strIn x t) = true then
    { c with best_time := some text }
  else c

/-- Name extraction.  The pattern is searched in the lowercased text `t`,
but the split runs on the original-cased `text`: when the pattern does not
occur there, `text.split(pat, 1)[1]` raises IndexError, modelled as
`Except.error`. -/
def nameStep (text t : String) (c : Collected) : Except Unit Collected :=
  if c.name.isSome then Except.ok c
  else
    match findPat t namePats with
    | none => Except.ok c
    | some pat =>
      match sOnce pat.data text.data with
      | none => Except.error ()
      | some rest =>
        let name := String.mk (stripList rest)
        if 2 ≤ name.length then
          Except.ok { c with name := some (String.mk ((truncStops nameStopList name).data.take 80)) }
        else Except.ok c

/-- The extractor `update_collected_from_text`.  On the IndexError path the
error value carries the state with the phone/best-time mutations that
already happened in place. -/
def update_collected_from_text (state : SessionState) (user_text : String) :
    Except SessionState SessionState :=
  let text := pyStrip user_text
  let t := pyLower text
  let c2 := timeStep text t (phoneStep text state.collected)
  match nameStep text t c2 with
  | Except.error _ => Except.error { state with collected := c2 }
  | Except.ok c3 => Except.ok { state with collected := c3 }

/-- Building the `missing` list: each `if` appends via `missing.end(...)`,
but Python lists have no `end` method, so the first falsy field raises
AttributeError.  The list is returned (necessarily empty) only when all
three fields are truthy. -/
def buildMissing (c : Collected) : Except Unit (List String) :=
  if !truthy c.name then Except.error ()
  else if !truthy c.phone then Except.error ()
  else if !truthy c.best_time then Except.error ()
  else Except.ok []

/-- Reply asking for the remaining fields (LIMITED_RESPONSE branch). -/
def ask_reply_limited (ask : String) : String :=
  "Got it — to arrange a callback, I still need your " ++ ask
  ++ ". You can reply in one message like: “My name is …, my phone is …, best time is …”."

/-- Handoff reply of the LIMITED_RESPONSE branch. -/
def handoff_reply_limited (practice_name : String) (c : Collected) : String :=
  "Thanks, " ++ pyStr c.name ++ ". I’ve captured your details.\n\n**Phone:** "
  ++ pyStr c.phone ++ "\n**Best time:** " ++ pyStr c.best_time
  ++ "\n\nSomeone from " ++ practice_name
  ++ " will contact you. If your symptoms worsen (swelling, fever, trouble swallowing/breathing), please seek urgent care."

/-- Reply naming the still-missing fields (COLLECT_CONTACT branch). -/
def ask_reply_collect (missingStr : String) : String :=
  "Thanks — I’m still missing: " ++ missingStr ++ "."

/-- Handoff reply of the COLLECT_CONTACT branch; it does not interpolate
the practice name. -/
def handoff_reply_collect (c : Collected) : String :=
  "Perfect — thanks, " ++ pyStr c.name ++ ". We’ll call " ++ pyStr c.phone
  ++ " (" ++ pyStr c.best_time ++ ")."

/-- Fallback reply for HANDOFF (or unknown) steps. -/
def fallback_reply (practice_name : String) : String :=
  "Thanks — your request is with the team at " ++ practice_name
  ++ ". If anything changes urgently, please seek immediate care."

/-- The dialogue step `next_reply`: policy gating, then the state machine.
Errors carry the session state as mutated when the exception is raised. -/
def next_reply (practice_name user_text : String) (state : SessionState) :
    Except (PyError × SessionState) (String × SessionState) :=
  if is_medical_or_medication_question user_text then
    Except.ok (limited_response_policy practice_name user_text,
      { state with step := Step.LIMITED_RESPONSE })
  else if state.step = Step.LIMITED_RESPONSE then
    match update_collected_from_text state user_text with
    | Except.error s1 => Except.error (PyError.indexError, s1)
    | Except.ok s1 =>
      match buildMissing s1.collected with
      | Except.error _ => Except.error (PyError.attrError, s1)
      | Except.ok missing =>
        if missing.isEmpty then
          Except.ok (handoff_reply_limited practice_name s1.collected,
            { s1 with step := Step.HANDOFF })
        else
          Except.ok (ask_reply_limited (joinComma missing),
            { s1 with step := Step.COLLECT_CONTACT })
  else if state.step = Step.COLLECT_CONTACT then
    match update_collected_from_text state user_text with
    | Except.error s1 => Except.error (PyError.indexError, s1)
    | Except.ok s1 =>
      match buildMissing s1.collected with
      | Except.error _ => Except.error (PyError.attrError, s1)
      | Except.ok missing =>
        if missing.isEmpty then
          Except.ok (handoff_reply_collect s1.collected,
            { s1 with step := Step.HANDOFF })
        else
          Except.ok (ask_reply_collect (joinComma missing), s1)
  else
    Except.ok (fallback_reply practice_name, state)

/-- State carried by an extractor outcome, error or not. -/
def outE : Except SessionState SessionState → SessionState
  | Except.error s => s
  | Except.ok s => s

/-- State carried by a `next_reply` outcome, error or not. -/
def outR : Except (PyError × SessionState) (String × SessionState) → SessionState
  | Except.error p => p.2
  | Except.ok p => p.2

/-- A session in COLLECT_CONTACT that already knows only the best time. -/
def onlyTimeState : SessionState :=
  { step := Step.COLLECT_CONTACT, collected := { best_time := some "anytime" } }

/-- A session in COLLECT_CONTACT with all three contact fields known. -/
def fullCollectState : SessionState :=
  { step := Step.COLLECT_CONTACT,
    collected := { name := some "Ana", phone := some "+15551234567",
                   best_time := some "anytime" } }

/-- Claim C1 (code_bug evidence): `next_reply` is not total.  On the
benign text "hello" from a fresh session, no field is extracted, so the
first `missing.end("name")` raises AttributeError (`list` has no `end`
method); the session state is unchanged when the exception propagates. -/
theorem next_reply_attr_error_on_missing :
    next_reply "Example Dental Clinic" "hello" initState =
      Except.error (PyError.attrError, initState) := by decide

/-- Claim C2 (code_bug evidence): on "My name is Ana" the extractor finds
the pattern "my name is " in the lowercased text, but then splits the
original-cased text, where that pattern does not occur, so
`text.split(pat, 1)[1]` raises IndexError and no name is stored. -/
theorem name_split_index_error_on_cased_text :
    update_collected_from_text initState "My name is Ana" =
      Except.error initState := by decide

/-- Claim C3 (code_bug evidence): on the scripted input the phone and the
best time are extracted, but the name split raises IndexError (the
pattern was matched case-insensitively yet split case-sensitively), so the
turn produces no reply and the step never reaches HANDOFF. -/
theorem scripted_turn_index_error :
    next_reply "Example Dental Clinic"
      "My name is Ana, my phone is +1 555 123 4567, anytime is fine" initState =
      Except.error (PyError.indexError,
        { initState with collected :=
          { phone := some "+15551234567",
            best_time := some "My name is Ana, my phone is +1 555 123 4567, anytime is fine" } }) := by
  decide

/-- Claim C6 (counterexample): on "my name is a, thanks" the raw candidate
"a, thanks" passes the length-≥-2 check BEFORE truncation, so the name is
stored as "a" — the claim predicted it would remain unset. -/
theorem name_set_despite_short_truncation :
    update_collected_from_text initState "my name is a, thanks" =
      Except.ok { initState with collected := { name := some "a" } } := by decide

/-- Claim C7 (code_bug evidence): in COLLECT_CONTACT with only the best
time known, a benign text reaches the missing-field accounting, whose
first `missing.end(...)` raises AttributeError; no missing-items reply is
ever produced. -/
theorem collect_contact_missing_attr_error :
    next_reply "Example Dental Clinic" "ok thanks" onlyTimeState =
      Except.error (PyError.attrError, onlyTimeState) := by decide

/-- Claim C8 (counterexample): completing the collection from
COLLECT_CONTACT does reach HANDOFF, but the reply does not contain the
practice name, against the claim that both completion branches mention
it. -/
theorem collect_handoff_reply_lacks_practice_name :
    next_reply "Example Dental Clinic" "ok" fullCollectState =
      Except.ok ("Perfect — thanks, Ana. We’ll call +15551234567 (anytime).",
        { fullCollectState with step := Step.HANDOFF }) ∧
    strIn "Example Dental Clinic"
      "Perfect — thanks, Ana. We’ll call +15551234567 (anytime)." = false := by
  exact ⟨by decide, by decide⟩

/-- When the policy gate fires, `next_reply` returns the disclaimer with
the step forced to LIMITED_RESPONSE and touches nothing else. -/
lemma next_reply_gate_eq (p u : String) (s : SessionState)
    (h : is_medical_or_medication_question u = true) :
    next_reply p u s =
      Except.ok (limited_response_policy p u,
        { s with step := Step.LIMITED_RESPONSE }) := by
  simp [next_reply, h]

/-- A demo session already in HANDOFF with every field populated. -/
def handoffDemoState : SessionState :=
  { step := Step.HANDOFF, procedure := some "extraction", intent := some "callback",
    collected := { name := some "Ana", phone := some "+15551234567",
                   best_time := some "anytime" } }

/-- Claim C4: whenever the policy gate fires — from any step, HANDOFF
included — `next_reply` returns exactly the interpolated disclaimer and
the state with only the step changed to LIMITED_RESPONSE; the collected
fields, procedure and intent are untouched and no extraction runs. -/
theorem gate_preempts_state_machine (p u : String) (s : SessionState)
    (h : is_medical_or_medication_question u = true) :
    next_reply p u s =
      Except.ok (limited_response_policy p u,
        { s with step := Step.LIMITED_RESPONSE }) :=
  next_reply_gate_eq p u s h

/-- Witness for C4: a gated message arriving in HANDOFF resets the step to
LIMITED_RESPONSE and yields the disclaimer, with the collected fields
kept. -/
theorem gate_preempts_state_machine_witness :
    is_medical_or_medication_question "Should I take antibiotics?" = true ∧
    next_reply "Acme Dental" "Should I take antibiotics?" handoffDemoState =
      Except.ok (limited_response_policy "Acme Dental" "Should I take antibiotics?",
        { handoffDemoState with step := Step.LIMITED_RESPONSE }) :=
  ⟨by decide,
   gate_preempts_state_machine "Acme Dental" "Should I take antibiotics?"
     handoffDemoState (by decide)⟩

/-- Claim C9: any text whose lowercasing contains "antibiotics" makes the
policy gate fire, and any text whose lowercasing contains none of the
keywords leaves it silent. -/
theorem gate_keyword_semantics (t₁ t₂ : String)
    (h1 : strIn "antibiotics" (pyLower t₁) = true)
    (h2 : keywordList.all (fun k => !strIn k (pyLower t₂)) = true) :
    is_medical_or_medication_question t₁ = true ∧
    is_medical_or_medication_question t₂ = false := by
  constructor
  · show keywordList.any (fun k => strIn k (pyLower t₁)) = true
    exact List.any_eq_true.mpr ⟨"antibiotics", by decide, h1⟩
  · show keywordList.any (fun k => strIn k (pyLower t₂)) = false
    rw [List.any_eq_false]
    intro k hk
    have hh := List.all_eq_true.mp h2 k hk
    simp only [Bool.not_eq_true'] at hh
    simp [hh]

/-- Witness for C9: "Do I need Antibiotics today" fires the gate and
"hello there" does not. -/
theorem gate_keyword_semantics_witness :
    (strIn "antibiotics" (pyLower "Do I need Antibiotics today") = true ∧
     keywordList.all (fun k => !strIn k (pyLower "hello there")) = true) ∧
    (is_medical_or_medication_question "Do I need Antibiotics today" = true ∧
     is_medical_or_medication_question "hello there" = false) :=
  ⟨⟨by decide, by decide⟩,
   gate_keyword_semantics "Do I need Antibiotics today" "hello there"
     (by decide) (by decide)⟩

/-- Claim C10: the gate's keyword list contains the bare word "take",
matched as a substring of the lowercased text, so any message containing
"take" anywhere (also inside another word) fires the gate and makes
`next_reply` return the disclaimer without running field extraction. -/
theorem take_substring_forces_disclaimer (p u : String) (s : SessionState)
    (h : strIn "take" (pyLower u) = true) :
    "take" ∈ keywordList ∧
    is_medical_or_medication_question u = true ∧
    next_reply p u s =
      Except.ok (limited_response_policy p u,
        { s with step := Step.LIMITED_RESPONSE }) := by
  have hg : is_medical_or_medication_question u = true := by
    show keywordList.any (fun k => strIn k (pyLower u)) = true
    exact List.any_eq_true.mpr ⟨"take", by decide, h⟩
  exact ⟨by decide, hg, next_reply_gate_eq p u s hg⟩

/-- Witness for C10: "it takes ten minutes" contains "take" inside
"takes", so the whole turn is gated. -/
theorem take_substring_forces_disclaimer_witness :
    strIn "take" (pyLower "it takes ten minutes") = true ∧
    ("take" ∈ keywordList ∧
     is_medical_or_medication_question "it takes ten minutes" = true ∧
     next_reply "Acme Dental" "it takes ten minutes" initState =
       Except.ok (limited_response_policy "Acme Dental" "it takes ten minutes",
         { initState with step := Step.LIMITED_RESPONSE })) :=
  ⟨by decide,
   take_substring_forces_disclaimer "Acme Dental" "it takes ten minutes"
     initState (by decide)⟩

lemma phoneStep_name_eq (text : String) (c : Collected) :
    (phoneStep text c).name = c.name := by
  simp only [phoneStep]; split <;> rfl

lemma phoneStep_best_eq (text : String) (c : Collected) :
    (phoneStep text c).best_time = c.best_time := by
  simp only [phoneStep]; split <;> rfl

lemma phoneStep_phone_some (text : String) (c : Collected) (v : String)
    (h : c.phone = some v) : (phoneStep text c).phone = some v := by
  simp only [phoneStep]; split
  · rename_i hc; rw [hc.2] at h; exact Option.noConfusion h
  · exact h

lemma timeStep_name_eq (text t : String) (c : Collected) :
    (timeStep text t c).name = c.name := by
  simp only [timeStep]; split <;> rfl

lemma timeStep_phone_eq (text t : String) (c : Collected) :
    (timeStep text t c).phone = c.phone := by
  simp only [timeStep]; split <;> rfl

lemma timeStep_best_some (text t : String) (c : Collected) (v : String)
    (h : c.best_time = some v) : (timeStep text t c).best_time = some v := by
  simp only [timeStep]; split
  · rename_i hc; rw [hc.1] at h; exact Option.noConfusion h
  · exact h

lemma nameStep_of_some (text t : String) (c : Collected)
    (h : c.name.isSome = true) : nameStep text t c = Except.ok c := by
  simp [nameStep, h]

lemma nameStep_ok_phone_best {text t : String} {c c3 : Collected}
    (h : nameStep text t c = Except.ok c3) :
    c3.phone = c.phone ∧ c3.best_time = c.best_time := by
  simp only [nameStep] at h
  split at h
  · injection h with h; subst h; exact ⟨rfl, rfl⟩
  · split at h
    · injection h with h; subst h; exact ⟨rfl, rfl⟩
    · split at h
      · exact Except.noConfusion h
      · split at h
        · injection h with h; subst h; exact ⟨rfl, rfl⟩
        · injection h with h; subst h; exact ⟨rfl, rfl⟩

/-- The extractor never changes or clears an already-set field, on the
normal path and on the IndexError path alike. -/
lemma extract_keeps (s : SessionState) (u : String) (v : String) :
    (s.collected.name = some v →
      (outE (update_collected_from_text s u)).collected.name = some v) ∧
    (s.collected.phone = some v →
      (outE (update_collected_from_text s u)).collected.phone = some v) ∧
    (s.collected.best_time = some v →
      (outE (update_collected_from_text s u)).collected.best_time = some v) := by
  simp only [update_collected_from_text]
  set text := pyStrip u with htext
  set t := pyLower text with ht
  set c2 := timeStep text t (phoneStep text s.collected) with hc2
  have h2name : c2.name = s.collected.name := by
    rw [hc2, timeStep_name_eq, phoneStep_name_eq]
  have h2phone : ∀ w, s.collected.phone = some w → c2.phone = some w := by
    intro w hw
    rw [hc2, timeStep_phone_eq]
    exact phoneStep_phone_some text s.collected w hw
  have h2best : ∀ w, s.collected.best_time = some w → c2.best_time = some w := by
    intro w hw
    rw [hc2]
    exact timeStep_best_some text t _ w
      (by rw [phoneStep_best_eq]; exact hw)
  cases hn : nameStep text t c2 with
  | error e =>
    simp only [outE]
    exact ⟨fun h => h2name.trans h, fun h => h2phone v h, fun h => h2best v h⟩
  | ok c3 =>
    have hpb := nameStep_ok_phone_best hn
    refine ⟨fun h => ?_, fun h => ?_, fun h => ?_⟩
    · have hsome : c2.name.isSome = true := by rw [h2name, h]; rfl
      rw [nameStep_of_some text t c2 hsome] at hn
      injection hn with hn
      simp only [outE]
      rw [← hn]
      exact h2name.trans h
    · simp only [outE]; rw [hpb.1]; exact h2phone v h
    · simp only [outE]; rw [hpb.2]; exact h2best v h

/-- `next_reply` never changes or clears an already-set field, whatever
outcome (reply or exception) the turn has. -/
lemma reply_keeps (p u : String) (s : SessionState) (v : String) :
    (s.collected.name = some v →
      (outR (next_reply p u s)).collected.name = some v) ∧
    (s.collected.phone = some v →
      (outR (next_reply p u s)).collected.phone = some v) ∧
    (s.collected.best_time = some v →
      (outR (next_reply p u s)).collected.best_time = some v) := by
  have hx := extract_keeps s u v
  simp only [next_reply]
  split
  · exact ⟨fun h => h, fun h => h, fun h => h⟩
  · split
    · cases hu : update_collected_from_text s u with
      | error s1 =>
        rw [hu] at hx; simp only [outE] at hx
        exact hx
      | ok s1 =>
        dsimp only
        rw [hu] at hx; simp only [outE] at hx
        split <;> (try split) <;> exact hx
    · split
      · cases hu : update_collected_from_text s u with
        | error s1 =>
          rw [hu] at hx; simp only [outE] at hx
          exact hx
        | ok s1 =>
          dsimp only
          rw [hu] at hx; simp only [outE] at hx
          split <;> (try split) <;> exact hx
      · exact ⟨fun h => h, fun h => h, fun h => h⟩

/-- Claim C5: monotonic fill.  A collected field that is already set is
never changed or cleared, neither by the extractor nor by a full
`next_reply` turn, whatever the new text says and however the turn ends. -/
theorem collected_fields_monotonic (p u : String) (s : SessionState) (v : String) :
    (s.collected.name = some v →
      (outE (update_collected_from_text s u)).collected.name = some v ∧
      (outR (next_reply p u s)).collected.name = some v) ∧
    (s.collected.phone = some v →
      (outE (update_collected_from_text s u)).collected.phone = some v ∧
      (outR (next_reply p u s)).collected.phone = some v) ∧
    (s.collected.best_time = some v →
      (outE (update_collected_from_text s u)).collected.best_time = some v ∧
      (outR (next_reply p u s)).collected.best_time = some v) := by
  have hx := extract_keeps s u v
  have hr := reply_keeps p u s v
  exact ⟨fun h => ⟨hx.1 h, hr.1 h⟩,
         fun h => ⟨hx.2.1 h, hr.2.1 h⟩,
         fun h => ⟨hx.2.2 h, hr.2.2 h⟩⟩

/-- Witness for C5: a fully-populated session hit with a text that tries
to re-set all three fields keeps its original values. -/
theorem collected_fields_monotonic_witness :
    ((outE (update_collected_from_text handoffDemoState
        "i am Bob, phone +1 222 333 4444, tomorrow morning")).collected.name = some "Ana" ∧
     (outR (next_reply "P" "i am Bob, phone +1 222 333 4444, tomorrow morning"
        handoffDemoState)).collected.name = some "Ana") ∧
    ((outE (update_collected_from_text handoffDemoState
        "i am Bob, phone +1 222 333 4444, tomorrow morning")).collected.phone = some "+15551234567" ∧
     (outR (next_reply "P" "i am Bob, phone +1 222 333 4444, tomorrow morning"
        handoffDemoState)).collected.phone = some "+15551234567") ∧
    ((outE (update_collected_from_text handoffDemoState
        "i am Bob, phone +1 222 333 4444, tomorrow morning")).collected.best_time = some "anytime" ∧
     (outR (next_reply "P" "i am Bob, phone +1 222 333 4444, tomorrow morning"
        handoffDemoState)).collected.best_time = some "anytime") :=
  ⟨(collected_fields_monotonic "P" "i am Bob, phone +1 222 333 4444, tomorrow morning"
      handoffDemoState "Ana").1 rfl,
   (collected_fields_monotonic "P" "i am Bob, phone +1 222 333 4444, tomorrow morning"
      handoffDemoState "+15551234567").2.1 rfl,
   (collected_fields_monotonic "P" "i am Bob, phone +1 222 333 4444, tomorrow morning"
      handoffDemoState "anytime").2.2 rfl⟩

/-- With no name stored and a matching pattern whose split succeeds, the
name branch reduces to a length test on the candidate BEFORE truncation. -/
lemma nameStep_none_eq (text t : String) (c : Collected) (pat : String)
    (rest : List Char) (h0 : c.name = none)
    (hp : findPat t namePats = some pat)
    (hr : sOnce pat.data text.data = some rest) :
    nameStep text t c =
      (if 2 ≤ (stripList rest).length then
        Except.ok { c with name := some (String.mk ((truncStops nameStopList (String.mk (stripList rest))).data.take 80)) }
      else Except.ok c) := by
  simp only [nameStep, h0, Option.isSome_none, Bool.false_eq_true, if_false]
  rw [hp]
  dsimp only
  rw [hr]
  rfl

/-- Claim C6 (amended): the length-≥-2 test is applied to the raw trimmed
candidate BEFORE the delimiter truncation.  When the raw candidate has
length ≥ 2, the truncated candidate (possibly shorter than 2) is stored,
capped at 80 characters; the name stays unset only when the raw candidate
has length < 2. -/
theorem name_length_checked_before_truncation (s : SessionState) (u : String)
    (pat : String) (rest : List Char)
    (h0 : s.collected.name = none)
    (hp : findPat (pyLower (pyStrip u)) namePats = some pat)
    (hr : sOnce pat.data (pyStrip u).data = some rest) :
    (2 ≤ (stripList rest).length →
      (outE (update_collected_from_text s u)).collected.name =
        some (String.mk ((truncStops nameStopList (String.mk (stripList rest))).data.take 80))) ∧
    ((stripList rest).length < 2 →
      (outE (update_collected_from_text s u)).collected.name = none) := by
  have hc2name :
      (timeStep (pyStrip u) (pyLower (pyStrip u)) (phoneStep (pyStrip u) s.collected)).name
        = none := by
    rw [timeStep_name_eq, phoneStep_name_eq]; exact h0
  have hstep := nameStep_none_eq (pyStrip u) (pyLower (pyStrip u))
    (timeStep (pyStrip u) (pyLower (pyStrip u)) (phoneStep (pyStrip u) s.collected))
    pat rest hc2name hp hr
  simp only [update_collected_from_text]
  rw [hstep]
  constructor
  · intro hlen
    rw [if_pos hlen]
    rfl
  · intro hlt
    rw [if_neg (by omega : ¬ 2 ≤ (stripList rest).length)]
    exact hc2name

/-- Witness for the amended C6: "my name is ana. bye" has raw candidate
"ana. bye" of length 8, so the name is stored as the truncated "ana". -/
theorem name_length_checked_before_truncation_witness :
    2 ≤ (stripList ("ana. bye".data)).length ∧
    (outE (update_collected_from_text initState "my name is ana. bye")).collected.name =
      some (String.mk ((truncStops nameStopList (String.mk (stripList ("ana. bye".data)))).data.take 80)) :=
  ⟨by decide,
   (name_length_checked_before_truncation initState "my name is ana. bye"
      "my name is " ("ana. bye".data) rfl (by decide) (by decide)).1 (by decide)⟩

/-- `subList` decides contiguous-sublist containment. -/
lemma subList_iff (pat : List Char) (l : List Char) :
    subList pat l = true ↔ pat <:+: l := by
  induction l with
  | nil =>
    show pat.isEmpty = true ↔ pat <:+: []
    rw [List.isEmpty_iff, List.infix_nil]
  | cons c rest ih =>
    show (pat.isPrefixOf (c :: rest) || subList pat rest) = true ↔ pat <:+: c :: rest
    rw [Bool.or_eq_true, List.isPrefixOf_iff_prefix, ih, List.infix_cons_iff]

/-- Containment certificate: a string occurs in any string whose character
list splits around it. -/
lemma strIn_of_eq_append (x s : String) (a b : List Char)
    (h : s.data = a ++ (x.data ++ b)) : strIn x s = true :=
  (subList_iff x.data s.data).mpr ⟨a, b, by rw [List.append_assoc]; exact h.symm⟩

/-- When all three fields are truthy, all three `if not ...` guards are
skipped and the (empty) missing list is returned without raising. -/
lemma buildMissing_ok {c : Collected} (hn : truthy c.name = true)
    (hp : truthy c.phone = true) (hb : truthy c.best_time = true) :
    buildMissing c = Except.ok [] := by
  simp [buildMissing, hn, hp, hb]

/-- Claim C8 (amended): a non-gated turn whose extraction leaves all three
fields truthy sets step = HANDOFF in both branches; the LIMITED_RESPONSE
reply echoes name, phone and best time and names the practice, while the
COLLECT_CONTACT reply echoes the three fields but does not interpolate the
practice name. -/
theorem handoff_on_complete (p u : String) (s s1 : SessionState)
    (hg : is_medical_or_medication_question u = false)
    (hu : update_collected_from_text s u = Except.ok s1)
    (hn : truthy s1.collected.name = true)
    (hph : truthy s1.collected.phone = true)
    (hb : truthy s1.collected.best_time = true) :
    (s.step = Step.LIMITED_RESPONSE →
      next_reply p u s =
        Except.ok (handoff_reply_limited p s1.collected,
          { s1 with step := Step.HANDOFF })) ∧
    (s.step = Step.COLLECT_CONTACT →
      next_reply p u s =
        Except.ok (handoff_reply_collect s1.collected,
          { s1 with step := Step.HANDOFF })) ∧
    strIn (pyStr s1.collected.name) (handoff_reply_limited p s1.collected) = true ∧
    strIn (pyStr s1.collected.phone) (handoff_reply_limited p s1.collected) = true ∧
    strIn (pyStr s1.collected.best_time) (handoff_reply_limited p s1.collected) = true ∧
    strIn p (handoff_reply_limited p s1.collected) = true ∧
    strIn (pyStr s1.collected.name) (handoff_reply_collect s1.collected) = true ∧
    strIn (pyStr s1.collected.phone) (handoff_reply_collect s1.collected) = true ∧
    strIn (pyStr s1.collected.best_time) (handoff_reply_collect s1.collected) = true := by
  have hbm : buildMissing s1.collected = Except.ok [] := buildMissing_ok hn hph hb
  refine ⟨fun hstep => ?_, fun hstep => ?_, ?_, ?_, ?_, ?_, ?_, ?_, ?_⟩
  · simp [next_reply, hg, hstep, hu, hbm]
  · simp [next_reply, hg, hstep, hu, hbm]
  · exact strIn_of_eq_append _ _ "Thanks, ".data
      ((". I’ve captured your details.\n\n**Phone:** " ++ pyStr s1.collected.phone
        ++ "\n**Best time:** " ++ pyStr s1.collected.best_time ++ "\n\nSomeone from "
        ++ p ++ " will contact you. If your symptoms worsen (swelling, fever, trouble swallowing/breathing), please seek urgent care.").data)
      (by simp [handoff_reply_limited, String.data_append, List.append_assoc])
  · exact strIn_of_eq_append _ _
      (("Thanks, " ++ pyStr s1.collected.name ++ ". I’ve captured your details.\n\n**Phone:** ").data)
      (("\n**Best time:** " ++ pyStr s1.collected.best_time ++ "\n\nSomeone from "
        ++ p ++ " will contact you. If your symptoms worsen (swelling, fever, trouble swallowing/breathing), please seek urgent care.").data)
      (by simp [handoff_reply_limited, String.data_append, List.append_assoc])
  · exact strIn_of_eq_append _ _
      (("Thanks, " ++ pyStr s1.collected.name ++ ". I’ve captured your details.\n\n**Phone:** "
        ++ pyStr s1.collected.phone ++ "\n**Best time:** ").data)
      (("\n\nSomeone from " ++ p ++ " will contact you. If your symptoms worsen (swelling, fever, trouble swallowing/breathing), please seek urgent care.").data)
      (by simp [handoff_reply_limited, String.data_append, List.append_assoc])
  · exact strIn_of_eq_append _ _
      (("Thanks, " ++ pyStr s1.collected.name ++ ". I’ve captured your details.\n\n**Phone:** "
        ++ pyStr s1.collected.phone ++ "\n**Best time:** " ++ pyStr s1.collected.best_time
        ++ "\n\nSomeone from ").data)
      (" will contact you. If your symptoms worsen (swelling, fever, trouble swallowing/breathing), please seek urgent care.".data)
      (by simp [handoff_reply_limited, String.data_append, List.append_assoc])
  · exact strIn_of_eq_append _ _ "Perfect — thanks, ".data
      ((". We’ll call " ++ pyStr s1.collected.phone ++ " (" ++ pyStr s1.collected.best_time ++ ").").data)
      (by simp [handoff_reply_collect, String.data_append, List.append_assoc])
  · exact strIn_of_eq_append _ _
      (("Perfect — thanks, " ++ pyStr s1.collected.name ++ ". We’ll call ").data)
      ((" (" ++ pyStr s1.collected.best_time ++ ").").data)
      (by simp [handoff_reply_collect, String.data_append, List.append_assoc])
  · exact strIn_of_eq_append _ _
      (("Perfect — thanks, " ++ pyStr s1.collected.name ++ ". We’ll call "
        ++ pyStr s1.collected.phone ++ " (").data)
      (").".data)
      (by simp [handoff_reply_collect, String.data_append, List.append_assoc])

/-- The session state produced by extracting from the witness message. -/
def wExtracted : SessionState :=
  { step := Step.LIMITED_RESPONSE,
    collected := { name := some "ana smith", phone := some "+12223334444",
                   best_time := some "i am ana smith, +1 222 333 4444, anytime works" } }

/-- Witness for the amended C8: a single message supplying name, phone and
best time completes the collection and hands off. -/
theorem handoff_on_complete_witness :
    (is_medical_or_medication_question "i am ana smith, +1 222 333 4444, anytime works" = false ∧
     update_collected_from_text initState "i am ana smith, +1 222 333 4444, anytime works" =
       Except.ok wExtracted ∧
     truthy wExtracted.collected.name = true ∧
     truthy wExtracted.collected.phone = true ∧
     truthy wExtracted.collected.best_time = true ∧
     initState.step = Step.LIMITED_RESPONSE) ∧
    next_reply "Example Dental Clinic" "i am ana smith, +1 222 333 4444, anytime works" initState =
      Except.ok (handoff_reply_limited "Example Dental Clinic" wExtracted.collected,
        { wExtracted with step := Step.HANDOFF }) :=
  ⟨⟨by decide, by decide, by decide, by decide, by decide, rfl⟩,
   (handoff_on_complete "Example Dental Clinic"
      "i am ana smith, +1 222 333 4444, anytime works" initState wExtracted
      (by decide) (by decide) (by decide) (by decide) (by decide)).1 rfl⟩

end PolicyDemo
